import Mathlib

/-!
Shallow embedding of the local content-generation engine of the study-buddy
repository (src/src/services/AIService.ts and the near-identical copy in
src/src/services/SummariesService.ts), together with proofs about it.

JavaScript strings are modelled as `List Char`; the string methods used by the
source (`trim`, `split` on the regexes `[.!?]+`, `\s+` and `\n\s*\n`,
`substring`, `includes`, `endsWith`, `toLowerCase`, `toUpperCase`,
`replace(/[^\w]/g,'')`) are given executable structural definitions below with
JavaScript semantics (ASCII case mapping; `\w` is `[A-Za-z0-9_]`; `\s` is the
ASCII whitespace class).  `Math.floor(Math.random() * n)` is modelled by
drawing from an explicit stream of naturals reduced mod `n`, so theorems
quantified over all streams cover every behaviour of the random source, and a
concrete stream gives an executable run.
-/

/-- A JavaScript string, as its list of characters. -/
abbrev JStr := List Char

/-- The JavaScript `\s` class restricted to ASCII: space, tab, LF, VT, FF, CR. -/
def jsIsWs (c : Char) : Bool :=
  c = ' ' || c = '\t' || c = '\n' || c = '\x0b' || c = '\x0c' || c = '\r'

/-- The JavaScript `\w` class: `[A-Za-z0-9_]`. -/
def jsIsWordChar (c : Char) : Bool :=
  ('a' ≤ c && c ≤ 'z') || ('A' ≤ c && c ≤ 'Z') || ('0' ≤ c && c ≤ '9') || c = '_'

/-- ASCII lower-casing of one character (`String.prototype.toLowerCase`). -/
def jsLowerChar (c : Char) : Char :=
  if 'A' ≤ c && c ≤ 'Z' then Char.ofNat (c.toNat + 32) else c

/-- ASCII upper-casing of one character (`String.prototype.toUpperCase`). -/
def jsUpperChar (c : Char) : Char :=
  if 'a' ≤ c && c ≤ 'z' then Char.ofNat (c.toNat - 32) else c

/-- `s.toLowerCase()`. -/
def jsLower (s : JStr) : JStr := s.map jsLowerChar

/-- `s.toUpperCase()`. -/
def jsUpper (s : JStr) : JStr := s.map jsUpperChar

/-- `s.trim()`: strip leading and trailing whitespace. -/
def jsTrim (s : JStr) : JStr :=
  ((s.dropWhile jsIsWs).reverse.dropWhile jsIsWs).reverse

/-- Does `s` start with `pre` (character-wise equality)? -/
def jsStartsWith : JStr → JStr → Bool
  | _, [] => true
  | [], _ :: _ => false
  | c :: cs, d :: ds => c = d && jsStartsWith cs ds

/-- Does `s` start with `pre`, comparing case-insensitively (ASCII)? -/
def jsStartsWithCI : JStr → JStr → Bool
  | _, [] => true
  | [], _ :: _ => false
  | c :: cs, d :: ds => jsLowerChar c = jsLowerChar d && jsStartsWithCI cs ds

/-- `s.includes(sub)`. -/
def jsIncludes (s sub : JStr) : Bool :=
  (List.range (s.length + 1)).any fun p => jsStartsWith (s.drop p) sub

/-- `s.endsWith(suffix)`. -/
def jsEndsWith (s suffix : JStr) : Bool :=
  jsStartsWith s.reverse suffix.reverse

/-- `s.split(re)` for a regex matching maximal nonempty runs of characters
satisfying `p` (the source uses `[.!?]+` and `\s+`): the pieces between the
runs, keeping empty pieces at the boundaries, and `[""]` on the empty string. -/
def jsSplitRuns (p : Char → Bool) : JStr → List JStr
  | [] => [[]]
  | [c] => if p c then [[], []] else [[c]]
  | c :: d :: cs =>
    if p c then
      if p d then jsSplitRuns p (d :: cs)
      else [] :: jsSplitRuns p (d :: cs)
    else
      match jsSplitRuns p (d :: cs) with
      | [] => [[c]]
      | piece :: rest => (c :: piece) :: rest

/-- Sentence delimiters of the source's `split(/[.!?]+/)`. -/
def isSentSep (c : Char) : Bool := c = '.' || c = '!' || c = '?'

/-- `s.substring(a, b)` (JavaScript clamps both indices and swaps them when
out of order). -/
def jsSubstring (s : JStr) (a b : Nat) : JStr :=
  let a' := min a s.length
  let b' := min b s.length
  (s.drop (min a' b')).take (max a' b' - min a' b')

/-- `arr.join(sep)`. -/
def jsJoin (sep : JStr) (xs : List JStr) : JStr :=
  List.intercalate sep xs

/-- `${n}`: decimal rendering of a natural number. -/
def natStr (n : Nat) : JStr := Nat.toDigits 10 n

/-- The leftmost match of the regex `\n\s*\n` in `s`, as `(start, end)`:
at a position holding `'\n'`, the greedy `\s*` takes the maximal whitespace
run after it and backtracks to the last `'\n'` inside that run. -/
def jsFindBlankSep (s : JStr) : Option (Nat × Nat) :=
  (List.range s.length).findSome? fun p =>
    if (s.getD p ' ') = '\n' then
      let run := (s.drop (p + 1)).takeWhile jsIsWs
      match (List.range run.length).filter (fun m => run.getD m ' ' = '\n') with
      | [] => none
      | ms => match ms.getLast? with
        | none => none
        | some m => some (p, p + 1 + m + 1)
    else none

/-- `text.split(/\n\s*\n/)`, with fuel bounded by the text length (every match
consumes at least two characters, so the fuel never runs out). -/
def jsSplitParasGo : Nat → JStr → List JStr
  | 0, s => [s]
  | fuel + 1, s =>
    match jsFindBlankSep s with
    | none => [s]
    | some (a, b) => s.take a :: jsSplitParasGo fuel (s.drop b)

/-- `text.split(/\n\s*\n/)`. -/
def jsSplitParas (s : JStr) : List JStr := jsSplitParasGo s.length s

/-- `arr.indexOf(v)`: the first index holding `v`, `-1` when absent. -/
def jsIndexOf [DecidableEq α] (l : List α) (v : α) : Int :=
  match l with
  | [] => -1
  | x :: xs =>
    if x = v then 0
    else
      let r := jsIndexOf xs v
      if r < 0 then -1 else r + 1

/-! ### Data model (AIService.ts lines 7-18) -/

/-- `FlashcardPair` of AIService.ts. -/
structure FlashcardPair where
  question : JStr
  answer : JStr
deriving DecidableEq, Repr

/-- `QuizQuestion` of AIService.ts.  `correct` is an `Int` because it is
produced by `Array.prototype.indexOf`, which returns `-1` on a miss. -/
structure QuizQuestion where
  id : JStr
  question : JStr
  options : List JStr
  correct : Int
  explanation : JStr
deriving DecidableEq, Repr

/-- The anonymous concept record built by `extractKeyConceptsFromText`
(AIService.ts lines 341-354): `application` and `characteristics` are
optional fields. -/
structure ExtractedConcept where
  term : JStr
  definition : JStr
  context : JStr
  application : Option JStr := none
  characteristics : Option JStr := none
deriving DecidableEq, Repr

/-! ### Randomness

`Math.floor(Math.random() * n)` yields a uniform value in `0 .. n-1`.  It is
modelled by consuming one value from a stream of naturals, reduced mod `n`:
quantifying over all streams covers every possible sequence of draws. -/

/-- One draw of `Math.floor(Math.random() * n)` from the stream. -/
def randBelow (n : Nat) : List Nat → Nat × List Nat
  | [] => (0, [])
  | r :: rest => (r % n, rest)

theorem randBelow_lt (n : Nat) (hn : 0 < n) (rs : List Nat) :
    (randBelow n rs).1 < n := by
  cases rs with
  | nil => simpa [randBelow] using hn
  | cons r rest => simpa [randBelow] using Nat.mod_lt r hn

/-- The destructuring swap `[array[i], array[j]] = [array[j], array[i]]`
(AIService.ts line 828), as a pure operation on lists. -/
def listSwap (l : List α) (i j : Nat) : List α :=
  match l.get? i, l.get? j with
  | some xi, some xj => (l.set i xj).set j xi
  | _, _ => l

/-- `shuffleArray` (AIService.ts lines 825-830): Fisher-Yates, iterating `i`
from `array.length - 1` down to `1`, drawing `j` below `i + 1` each time.
The first argument is the loop counter `i`. -/
def shuffleFrom (i : Nat) (l : List α) (rs : List Nat) : List α × List Nat :=
  match i with
  | 0 => (l, rs)
  | i' + 1 =>
    let p := randBelow (i' + 2) rs
    shuffleFrom i' (listSwap l (i' + 1) p.1) p.2

/-- `shuffleArray(array)` with the random draws threaded explicitly; returns
the shuffled array (the source mutates in place). -/
def shuffleArray (l : List α) (rs : List Nat) : List α × List Nat :=
  shuffleFrom (l.length - 1) l rs

/-! ### Permutation facts about the shuffle -/

theorem getElem_cons_set_perm :
    ∀ (xs : List α) (m : Nat) (hm : m < xs.length) (x : α),
      (xs[m] :: xs.set m x).Perm (x :: xs) := by
  intro xs
  induction xs with
  | nil => intro m hm x; simp at hm
  | cons y ys ih =>
    intro m hm x
    cases m with
    | zero => simpa using List.Perm.swap x y ys
    | succ k =>
      have hk : k < ys.length := by simpa using hm
      have h1 : (ys[k] :: y :: ys.set k x).Perm (y :: ys[k] :: ys.set k x) :=
        List.Perm.swap _ _ _
      have h2 : (y :: ys[k] :: ys.set k x).Perm (y :: x :: ys) :=
        (ih k hk x).cons y
      have h3 : (y :: x :: ys).Perm (x :: y :: ys) := List.Perm.swap _ _ _
      simpa using (h1.trans h2).trans h3

theorem swapSetPerm :
    ∀ (l : List α) (i j : Nat) (hi : i < l.length) (hj : j < l.length),
      ((l.set i l[j]).set j l[i]).Perm l := by
  intro l
  induction l with
  | nil => intro i j hi _; simp at hi
  | cons x xs ih =>
    intro i j hi hj
    cases i with
    | zero =>
      cases j with
      | zero => simp
      | succ m =>
        have hm : m < xs.length := by simpa using hj
        simpa using getElem_cons_set_perm xs m hm x
    | succ n =>
      cases j with
      | zero =>
        have hn : n < xs.length := by simpa using hi
        simpa using getElem_cons_set_perm xs n hn x
      | succ m =>
        have hn : n < xs.length := by simpa using hi
        have hm : m < xs.length := by simpa using hj
        simpa using (ih n m hn hm).cons x

theorem listSwap_eq (l : List α) (i j : Nat) (hi : i < l.length) (hj : j < l.length) :
    listSwap l i j = (l.set i l[j]).set j l[i] := by
  unfold listSwap
  rw [List.get?_eq_getElem?, List.get?_eq_getElem?,
    List.getElem?_eq_getElem hi, List.getElem?_eq_getElem hj]

theorem listSwap_perm (l : List α) (i j : Nat)
    (hi : i < l.length) (hj : j < l.length) : (listSwap l i j).Perm l := by
  rw [listSwap_eq l i j hi hj]
  exact swapSetPerm l i j hi hj

theorem listSwap_length (l : List α) (i j : Nat) :
    (listSwap l i j).length = l.length := by
  unfold listSwap
  cases h1 : l.get? i <;> cases h2 : l.get? j <;> simp

theorem shuffleFrom_perm :
    ∀ (i : Nat) (l : List α) (rs : List Nat), i < l.length →
      ((shuffleFrom i l rs).1).Perm l := by
  intro i
  induction i with
  | zero => intro l rs _; simp [shuffleFrom]
  | succ i' ih =>
    intro l rs h
    have hj : (randBelow (i' + 2) rs).1 < i' + 2 := randBelow_lt _ (by omega) rs
    have hlen : (listSwap l (i' + 1) (randBelow (i' + 2) rs).1).length = l.length :=
      listSwap_length l _ _
    have hswap : (listSwap l (i' + 1) (randBelow (i' + 2) rs).1).Perm l :=
      listSwap_perm l _ _ h (by omega)
    have step := ih (listSwap l (i' + 1) (randBelow (i' + 2) rs).1)
      (randBelow (i' + 2) rs).2 (by omega)
    exact (by simpa [shuffleFrom] using step.trans hswap)

/-- The shuffled array is a permutation of the input, for every stream of
random draws. -/
theorem shuffleArray_perm (l : List α) (rs : List Nat) :
    ((shuffleArray l rs).1).Perm l := by
  cases l with
  | nil => simp [shuffleArray, shuffleFrom]
  | cons x xs =>
    exact shuffleFrom_perm _ _ rs (by simp)

theorem jsIndexOf_mem [DecidableEq α] (l : List α) (v : α) (h : v ∈ l) :
    0 ≤ jsIndexOf l v ∧ (jsIndexOf l v).toNat < l.length ∧
      ∀ d, l.getD (jsIndexOf l v).toNat d = v := by
  induction l with
  | nil => simp at h
  | cons x xs ih =>
    by_cases hx : x = v
    · subst hx; simp [jsIndexOf]
    · have hv : v ∈ xs := by
        rcases List.mem_cons.mp h with h' | h'
        · exact absurd h'.symm hx
        · exact h'
      obtain ⟨h0, hlen, hget⟩ := ih hv
      have hneg : ¬ jsIndexOf xs v < 0 := by omega
      have : jsIndexOf (x :: xs) v = jsIndexOf xs v + 1 := by
        simp [jsIndexOf, hx, hneg]
      rw [this]
      refine ⟨by omega, by simp; omega, ?_⟩
      intro d
      have htn : (jsIndexOf xs v + 1).toNat = (jsIndexOf xs v).toNat + 1 := by omega
      rw [htn]
      simpa using hget d

theorem jsIndexOf_cons_self [DecidableEq α] (x : α) (xs : List α) :
    jsIndexOf (x :: xs) x = 0 := by
  simp [jsIndexOf]

/-! ### The definitional-pattern matcher of `extractKeyConceptsFromText`
(AIService.ts lines 362-366, identical in SummariesService.ts lines 369-373).

The source applies, in order, the JavaScript regexes
  1. `/(.+?)\s+(?:is|are|means?|refers?\s+to|defined\s+as)\s+(.+)/i`
  2. `/(.+?):\s*(.+)/`
  3. `/The\s+(.+?)\s+(?:is|are)\s+(.+)/i`
with `String.prototype.match` (leftmost match; a lazy group grows minimally,
a greedy `\s+`/`\s*` shrinks from its maximal run; `.` matches every
character but `'\n'`; alternatives are tried in written order).  The
functions below realize exactly that backtracking discipline. -/

/-- Case-insensitive literal prefix: the suffix after it, or `none`. -/
def ciDrop (kw q : JStr) : Option JStr :=
  if jsStartsWithCI q kw then some (q.drop kw.length) else none

/-- Length of the maximal leading whitespace run. -/
def wsRunLen (s : JStr) : Nat := (s.takeWhile jsIsWs).length

/-- Backtracking for `\s+(<group>+)` where the group's class keeps characters
satisfying `keep`: the whitespace run shrinks from `m` down to `1` until the
greedy group is nonempty. -/
def grabGroupFrom (keep : Char → Bool) (rest : JStr) : Nat → Option JStr
  | 0 => none
  | m + 1 =>
    let g := (rest.drop (m + 1)).takeWhile keep
    if g = [] then grabGroupFrom keep rest m else some g

/-- Match `\s+(X+)` (at least one whitespace character, then a greedy
nonempty group of characters satisfying `keep`) against a prefix of `rest`. -/
def grabGroupPlus (keep : Char → Bool) (rest : JStr) : Option JStr :=
  let n := wsRunLen rest
  if n = 0 then none else grabGroupFrom keep rest n

/-- Match `\s*(X+)` (possibly empty whitespace) against a prefix of `rest`. -/
def grabGroupStar (keep : Char → Bool) (rest : JStr) : Option JStr :=
  match grabGroupFrom keep rest (wsRunLen rest) with
  | some g => some g
  | none =>
    let g := rest.takeWhile keep
    if g = [] then none else some g

/-- `(?:refers?|...)\s+to`-style keyword: literal `kw`, one-or-more
whitespace, then literal `kw2`; keywords start with non-whitespace characters,
so only the maximal whitespace run can precede `kw2`. -/
def ciDrop2 (kw kw2 q : JStr) : Option JStr :=
  match ciDrop kw q with
  | none => none
  | some r =>
    let n := wsRunLen r
    if n = 0 then none else ciDrop kw2 (r.drop n)

/-- The keyword alternation `(?:is|are|means?|refers?\s+to|defined\s+as)` of
pattern 1, in the regex's backtracking order (a greedy `s?` tries the `s`
first): the candidate suffixes after the keyword. -/
def p1KeywordTails (q : JStr) : List JStr :=
  [ciDrop "is".data q, ciDrop "are".data q,
   ciDrop "means".data q, ciDrop "mean".data q,
   ciDrop2 "refers".data "to".data q, ciDrop2 "refer".data "to".data q,
   ciDrop2 "defined".data "as".data q].filterMap id

/-- The part of pattern 1 after the lazy group:
`\s+(?:is|are|means?|refers?\s+to|defined\s+as)\s+(.+)`.  The keywords start
with non-whitespace characters, so only the maximal whitespace run can
precede them. -/
def p1Tail (rest : JStr) : Option JStr :=
  let n := wsRunLen rest
  if n = 0 then none
  else (p1KeywordTails (rest.drop n)).findSome? (grabGroupPlus fun c => c ≠ '\n')

/-- Pattern 1 `/(.+?)\s+(?:is|are|means?|refers?\s+to|defined\s+as)\s+(.+)/i`:
leftmost starting position, minimal lazy first group (all of whose characters
must differ from `'\n'`), then `p1Tail`; yields `(match[1], match[2])`. -/
def matchP1 (s : JStr) : Option (JStr × JStr) :=
  (List.range s.length).findSome? fun start =>
    (List.range (s.length - start)).findSome? fun k0 =>
      let g1 := (s.drop start).take (k0 + 1)
      if g1.all (fun c => c ≠ '\n') then
        match p1Tail (s.drop (start + (k0 + 1))) with
        | some g2 => some (g1, g2)
        | none => none
      else none

/-- Pattern 2 `/(.+?):\s*(.+)/` (case does not matter: no letters). -/
def matchP2 (s : JStr) : Option (JStr × JStr) :=
  (List.range s.length).findSome? fun start =>
    (List.range (s.length - start)).findSome? fun k0 =>
      let g1 := (s.drop start).take (k0 + 1)
      if g1.all (fun c => c ≠ '\n') then
        match s.drop (start + (k0 + 1)) with
        | ':' :: r =>
          match grabGroupStar (fun c => c ≠ '\n') r with
          | some g2 => some (g1, g2)
          | none => none
        | _ => none
      else none

/-- The `(?:is|are)\s+(.+)` tail of pattern 3. -/
def p3Tail (rest : JStr) : Option JStr :=
  let n := wsRunLen rest
  if n = 0 then none
  else
    ([ciDrop "is".data (rest.drop n), ciDrop "are".data (rest.drop n)].filterMap id).findSome?
      (grabGroupPlus fun c => c ≠ '\n')

/-- Pattern 3 `/The\s+(.+?)\s+(?:is|are)\s+(.+)/i`: literal `The` (case-
insensitive), a greedy whitespace run (longest first, since the lazy group
may itself absorb whitespace), minimal lazy group, then `p3Tail`. -/
def matchP3 (s : JStr) : Option (JStr × JStr) :=
  (List.range s.length).findSome? fun start =>
    match ciDrop "The".data (s.drop start) with
    | none => none
    | some afterThe =>
      let w := wsRunLen afterThe
      if w = 0 then none
      else
        (List.range w).findSome? fun t =>
          let tail := afterThe.drop (w - t)
          (List.range tail.length).findSome? fun k0 =>
            let g1 := tail.take (k0 + 1)
            if g1.all (fun c => c ≠ '\n') then
              match p3Tail (tail.drop (k0 + 1)) with
              | some g2 => some (g1, g2)
              | none => none
            else none

/-- `term.replace(/^(the|a|an)\s+/i, '')` (AIService.ts line 371): strip a
leading article together with the whitespace run after it; the alternatives
are tried in the written order `the`, `a`, `an`. -/
def stripArticle (t : JStr) : JStr :=
  let strip1 : JStr → Option JStr := fun art =>
    match ciDrop art t with
    | none => none
    | some r =>
      let n := wsRunLen r
      if n = 0 then none else some (r.drop n)
  match strip1 "the".data with
  | some r => r
  | none =>
    match strip1 "a".data with
    | some r => r
    | none =>
      match strip1 "an".data with
      | some r => r
      | none => t

/-- The acceptance step of `extractKeyConceptsFromText` (AIService.ts lines
370-388): given a pattern match on the sentence at position `index` of the
filtered sentence array, apply the length guard and build the concept. -/
def conceptGuard (sentences : List JStr) (index : Nat) (m : JStr × JStr) :
    Option ExtractedConcept :=
  let term := stripArticle (jsTrim m.1)
  let definition := jsTrim m.2
  if term.length > 2 ∧ term.length < 50 ∧ definition.length > 10 then
    let contextStart := index - 1
    let contextEnd := min sentences.length (index + 2)
    let context := jsTrim
      (jsJoin ". ".data ((sentences.drop contextStart).take (contextEnd - contextStart)))
    some { term := term, definition := definition,
           context := jsSubstring context 0 200 ++
             (if context.length > 200 then "...".data else []),
           characteristics := some
             ("Key aspects: ".data ++ jsSubstring definition 0 100 ++ "...".data) }
  else none

/-- One sentence of the `sentences.forEach` loop (AIService.ts lines
358-390): try the three definition patterns in order; a pattern that matches
but fails the length guard does not stop the search (the `break` is only
reached after a successful push). -/
def conceptOfSentence (sentences : List JStr) (index : Nat) (sentence : JStr) :
    Option ExtractedConcept :=
  let t := jsTrim sentence
  ([matchP1 t, matchP2 t, matchP3 t].map
    (fun m? => m?.bind (conceptGuard sentences index))).findSome? id

/-- The stopword regex of `extractImportantTerms` (AIService.ts line 418);
the tested word is already lower-cased, so the full-match test is list
membership. -/
def importantStopWords : List JStr :=
  ["that", "this", "with", "from", "they", "them", "were", "been", "have",
   "will", "would", "could", "should", "there", "where", "when", "what",
   "which"].map String.data

/-- Frequency counting via an insertion-ordered association list, exactly the
iteration order of a JavaScript `Map`. -/
def bumpCount (m : List (JStr × Nat)) (k : JStr) : List (JStr × Nat) :=
  match m with
  | [] => [(k, 1)]
  | (k', n) :: rest =>
    if k' = k then (k', n + 1) :: rest else (k', n) :: bumpCount rest k

/-- Stable insertion into a descending-by-key list: an element passes one
with a strictly greater key, so earlier elements stay first on ties —
the behaviour of the (stable, ES2019) `Array.prototype.sort` with comparator
`(a, b) => key(b) - key(a)`. -/
def insertDescBy (key : α → Nat) (x : α) : List α → List α
  | [] => [x]
  | y :: ys => if key y > key x then y :: insertDescBy key x ys else x :: y :: ys

/-- Stable sort, descending by `key`. -/
def sortDescBy (key : α → Nat) : List α → List α
  | [] => []
  | x :: xs => insertDescBy key x (sortDescBy key xs)

/-- `extractImportantTerms` (AIService.ts lines 410-428, identical in
SummariesService.ts): frequency-rank the cleaned lower-cased words longer
than 4 characters that are not stopwords, and keep the top 10. -/
def extractImportantTerms (text : JStr) : List JStr :=
  let words := jsSplitRuns jsIsWs text
  let termFreq := words.foldl
    (fun m word =>
      let cleanWord := jsLower (word.filter jsIsWordChar)
      if cleanWord.length > 4 ∧ ¬ (cleanWord ∈ importantStopWords)
      then bumpCount m cleanWord else m)
    []
  ((sortDescBy Prod.snd termFreq).take 10).map Prod.fst

namespace AIService

/-- The `sentences` local of `extractKeyConceptsFromText` (AIService.ts
line 356): the split sentences longer than 30 trimmed characters. -/
def conceptSentences (text : JStr) : List JStr :=
  (jsSplitRuns isSentSep text).filter fun s => (jsTrim s).length > 30

/-- The `concepts` array after the `sentences.forEach` loop of
`extractKeyConceptsFromText` (AIService.ts lines 358-390): the concepts
found through the definitional patterns. -/
def patternConcepts (text : JStr) : List ExtractedConcept :=
  (conceptSentences text).enum.filterMap
    fun p => conceptOfSentence (conceptSentences text) p.1 p.2

/-- The frequency-fallback branch of `extractKeyConceptsFromText`
(AIService.ts lines 393-405). -/
def fallbackConcepts (text : JStr) : List ExtractedConcept :=
  (extractImportantTerms text).filterMap fun word =>
    let wordSentences := (conceptSentences text).filter
      fun s => jsIncludes (jsLower s) (jsLower word)
    match wordSentences with
    | [] => none
    | s0 :: _ =>
      some { term := word, definition := jsTrim s0,
             context := jsJoin ". ".data (wordSentences.take 2) }

/-- `extractKeyConceptsFromText` (AIService.ts lines 341-408): definitional
patterns over the sentences longer than 30 trimmed characters; if none
matched, fall back to frequency extraction.  This copy returns the list
un-truncated (line 407: "No artificial limit, let the count parameter
control this"). -/
def extractKeyConceptsFromText (text : JStr) : List ExtractedConcept :=
  if (patternConcepts text).length = 0 then fallbackConcepts text
  else patternConcepts text

end AIService

namespace SummariesService

/-- `extractKeyConceptsFromText` of SummariesService.ts (lines 349-416): the
body is textually identical to the AIService copy except for the final
`return concepts.slice(0, 10)`. -/
def extractKeyConceptsFromText (text : JStr) : List ExtractedConcept :=
  (AIService.extractKeyConceptsFromText text).take 10

end SummariesService

/-- JavaScript `a || b` on an optional string field: `undefined` and the
empty string are falsy. -/
def jsOrElse (a : Option JStr) (b : JStr) : JStr :=
  match a with
  | none => b
  | some s => if s = [] then b else s

namespace AIService

/-- One concept-based card of `generateEnhancedLocalFlashcards` (AIService.ts
lines 278-311): the card templates rotate as `cardTypes[i % 4]`. -/
def flashFromConcept (i : Nat) (concept : ExtractedConcept) : FlashcardPair :=
  match i % 4 with
  | 0 => { question := "What is ".data ++ concept.term ++ "?".data,
           answer := concept.definition }
  | 1 => { question := "In what context is \"".data ++ concept.term ++ "\" discussed?".data,
           answer := concept.context }
  | 2 => { question := "How is ".data ++ concept.term ++ " applied or used?".data,
           answer := jsOrElse concept.application concept.definition }
  | _ => { question := "What are the key characteristics of ".data ++ concept.term ++ "?".data,
           answer := jsOrElse concept.characteristics concept.definition }

/-- The sentence top-up loop of `generateEnhancedLocalFlashcards`
(AIService.ts lines 313-336): `sentenceIndex` advances every iteration, so
the loop is a fold over the sentence list. -/
def flashFromSentences (count : Nat) : List JStr → List FlashcardPair → List FlashcardPair
  | [], cards => cards
  | s :: rest, cards =>
    if cards.length < count then
      let sentence := jsTrim s
      let words := (jsSplitRuns jsIsWs sentence).filter fun w => w.length > 4
      if words.length ≥ 3 then
        let keyWord := words.getD (words.length / 2) []
        let questionTypes : List JStr :=
          ["What does \"".data ++ keyWord ++ "\" refer to in this context?".data,
           "According to the text, what is mentioned about ".data ++ jsLower keyWord ++ "?".data,
           "Complete this statement from the text: \"".data ++
             jsSubstring sentence 0 30 ++ "...\"".data,
           "What information is provided about ".data ++ jsLower keyWord ++ "?".data]
        let questionType := questionTypes.getD (cards.length % 4) []
        flashFromSentences count rest (cards ++ [{ question := questionType, answer := sentence }])
      else flashFromSentences count rest cards
    else cards

/-- `generateEnhancedLocalFlashcards` (AIService.ts lines 270-339). -/
def generateEnhancedLocalFlashcards (text : JStr) (count : Nat) : List FlashcardPair :=
  let sentences := (jsSplitRuns isSentSep text).filter fun s => (jsTrim s).length > 20
  let concepts := extractKeyConceptsFromText text
  let phase1 := (concepts.take (min count concepts.length)).enum.map
    fun p => flashFromConcept p.1 p.2
  (flashFromSentences count sentences phase1).take count

/-- The importance keywords of `generateLocalSummary` (AIService.ts line 254). -/
def summaryKeyWords : List JStr :=
  ["important", "key", "main", "primary", "essential", "crucial",
   "significant"].map String.data

/-- `generateLocalSummary` (AIService.ts lines 252-268). -/
def generateLocalSummary (text : JStr) : JStr :=
  let sentences := (jsSplitRuns isSentSep text).filter fun s => (jsTrim s).length > 20
  let importantSentences := (sentences.filter fun sentence =>
    summaryKeyWords.any fun word => jsIncludes (jsLower sentence) word).take 3
  if importantSentences.length = 0 then
    jsJoin ". ".data (sentences.take 3) ++ ".".data
  else
    jsJoin ". ".data importantSentences ++ ".".data

end AIService

/-! ### The quiz synthesizer's helpers (AIService.ts lines 584-715, with
textually identical copies in SummariesService.ts lines 559-668) -/

/-- A scored word of `findKeyWord`. -/
structure ScoredWord where
  word : JStr
  score : Nat
deriving DecidableEq, Repr

/-- The scoring step of `findKeyWord` (AIService.ts lines 586-589):
`word.replace(/[^\w]/g, '')` with score `length + 5` when the first
character equals its own upper-casing.  Call sites pass only nonempty words;
for an (unreachable) empty word the head defaults to a space. -/
def scoreWord (w : JStr) : ScoredWord :=
  { word := w.filter jsIsWordChar,
    score := w.length + (if jsUpperChar (w.headD ' ') = w.headD ' ' then 5 else 0) }

/-- `findKeyWord` (AIService.ts lines 584-593): stable sort by score
descending; `scoredWords[0]?.word || words[0]` falls back to the raw first
word when the cleaned best word is the (falsy) empty string. -/
def findKeyWord (words : List JStr) (sentence : JStr) : JStr :=
  let scoredWords := sortDescBy ScoredWord.score (words.map scoreWord)
  match scoredWords with
  | [] => words.getD 0 []
  | sw :: _ => if sw.word = [] then words.getD 0 [] else sw.word

/-- `generateSimilarWord` (AIService.ts lines 686-695). -/
def generateSimilarWord (word : JStr) (rs : List Nat) : JStr × List Nat :=
  let variations : List JStr :=
    [word ++ "s".data, word ++ "ing".data, word ++ "ed".data,
     word.dropLast ++ "y".data, word ++ "ly".data]
  let p := randBelow variations.length rs
  (variations.getD p.1 [], p.2)

/-- The rhyme table of `generateRhymingWord` (AIService.ts lines 698-703),
in object-key insertion order. -/
def rhymeTable : List (JStr × List JStr) :=
  [("tion".data, ["nation", "station", "creation"].map String.data),
   ("ing".data, ["thing", "ring", "sing"].map String.data),
   ("ed".data, ["red", "bed", "led"].map String.data),
   ("ly".data, ["my", "by", "try"].map String.data)]

/-- The `for (const ending in rhymes)` loop of `generateRhymingWord`
(AIService.ts lines 705-712): the first ending the word ends with whose
options (the rhymes other than the word itself) are nonempty. -/
def rhymeLoop (word : JStr) (rs : List Nat) :
    List (JStr × List JStr) → Option (JStr × List Nat)
  | [] => none
  | (ending, rhymeWords) :: rest =>
    if jsEndsWith word ending then
      let opts := rhymeWords.filter fun r => r ≠ word
      if opts.length > 0 then
        let p := randBelow opts.length rs
        some (opts.getD p.1 [], p.2)
      else rhymeLoop word rs rest
    else rhymeLoop word rs rest

/-- `generateRhymingWord` (AIService.ts lines 697-715): rhyme-table lookup,
falling back to the reversed word truncated to its own length. -/
def generateRhymingWord (word : JStr) (rs : List Nat) : JStr × List Nat :=
  match rhymeLoop word rs rhymeTable with
  | some r => r
  | none => (jsSubstring word.reverse 0 word.length, rs)

/-- Is the character at position `p` a word character (`false` past the
ends)? -/
def wordAt (s : JStr) (p : Nat) : Bool :=
  match (s.drop p).head? with
  | none => false
  | some c => jsIsWordChar c

/-- A `\b` word boundary at position `p`: exactly one neighbour is a word
character. -/
def boundaryAt (s : JStr) (p : Nat) : Bool :=
  (if p = 0 then false else wordAt s (p - 1)) != wordAt s p

/-- `sentence.replace(new RegExp('\\b' + targetWord + '\\b', 'i'), repl)`
(AIService.ts line 596): replace the leftmost case-insensitive whole-word
occurrence.  `targetWord` comes from `findKeyWord`, whose result is either
cleaned to `\w` characters or (via the falsy fallback) a raw token; the
pattern is modelled as the literal word between two `\b` assertions. -/
def replaceWordBoundCI (s target repl : JStr) : JStr :=
  match (List.range (s.length + 1)).find? (fun p =>
      boundaryAt s p ∧ jsStartsWithCI (s.drop p) target ∧
        boundaryAt s (p + target.length)) with
  | some p => s.take p ++ repl ++ s.drop (p + target.length)
  | none => s

/-- `generateFillBlankQuestion` (AIService.ts lines 595-616). -/
def generateFillBlankQuestion (sentence targetWord : JStr) (index : Nat)
    (rs : List Nat) : QuizQuestion × List Nat :=
  let questionText := replaceWordBoundCI sentence targetWord "_____".data
  let caseVariant :=
    if jsLower targetWord = targetWord then jsUpper targetWord else jsLower targetWord
  let p1 := generateSimilarWord targetWord rs
  let p2 := generateRhymingWord targetWord p1.2
  let distractors := [caseVariant, p1.1, p2.1].filter fun d => d ≠ targetWord
  let sh := shuffleArray (targetWord :: distractors.take 3) p2.2
  let correctIndex := jsIndexOf sh.1 targetWord
  ({ id := "q".data ++ natStr (index + 1),
     question := "Fill in the blank: ".data ++ questionText,
     options := sh.1,
     correct := correctIndex,
     explanation := "The correct answer is \"".data ++ targetWord ++
       "\" as it fits the context of the sentence.".data }, sh.2)

/-- The fixed correct option of `generateDefinitionQuestion`
(AIService.ts line 627). -/
def conceptOptionStr : JStr := "The concept mentioned in the given context".data

/-- `generateDefinitionQuestion` (AIService.ts lines 618-638). -/
def generateDefinitionQuestion (paragraph targetWord : JStr) (index : Nat)
    (rs : List Nat) : QuizQuestion × List Nat :=
  let context := jsSubstring paragraph 0 150 ++ "...".data
  let distractors : List JStr :=
    ["A type of ".data ++ jsLower targetWord,
     "The opposite of ".data ++ jsLower targetWord,
     "A synonym for ".data ++ jsLower targetWord]
  let sh := shuffleArray (conceptOptionStr :: distractors) rs
  let correctIndex := jsIndexOf sh.1 conceptOptionStr
  ({ id := "q".data ++ natStr (index + 1),
     question := "Based on the context: \"".data ++ context ++
       "\", what does \"".data ++ targetWord ++ "\" refer to?".data,
     options := sh.1,
     correct := correctIndex,
     explanation := "\"".data ++ targetWord ++
       "\" is best understood from its usage in the given context.".data }, sh.2)

/-- The fixed distractors of `generateContextQuestion`
(AIService.ts lines 643-647). -/
def contextDistractors : List JStr :=
  ["This information is not mentioned in the text",
   "The text suggests the opposite meaning",
   "This is partially correct but not the main point"].map String.data

/-- `generateContextQuestion` (AIService.ts lines 640-660). -/
def generateContextQuestion (paragraph sentence : JStr) (index : Nat)
    (rs : List Nat) : QuizQuestion × List Nat :=
  let mainIdea :=
    if sentence.length > 80 then jsSubstring sentence 0 80 ++ "...".data else sentence
  let sh := shuffleArray (mainIdea :: contextDistractors) rs
  let correctIndex := jsIndexOf sh.1 mainIdea
  ({ id := "q".data ++ natStr (index + 1),
     question := "Which statement best represents the main idea from the given text?".data,
     options := sh.1,
     correct := correctIndex,
     explanation := "This statement directly reflects the content and main idea presented in the text.".data }, sh.2)

/-- `generateComprehensionQuestion` (AIService.ts lines 662-684). -/
def generateComprehensionQuestion (paragraph sentence : JStr) (index : Nat)
    (rs : List Nat) : QuizQuestion × List Nat :=
  let words := (jsSplitRuns jsIsWs sentence).filter fun w => w.length > 3
  let keyWord := if words.length > 0 then words.getD (words.length / 2) [] else "concept".data
  let correctAnswer := "The text discusses ".data ++ keyWord ++ " as described".data
  let distractors : List JStr :=
    [keyWord ++ " is not discussed in this context".data,
     "The text contradicts this information about ".data ++ keyWord,
     keyWord ++ " is mentioned but with different details".data]
  let sh := shuffleArray (correctAnswer :: distractors) rs
  let correctIndex := jsIndexOf sh.1 correctAnswer
  ({ id := "q".data ++ natStr (index + 1),
     question := "Based on the text, what can you conclude about ".data ++ keyWord ++ "?".data,
     options := sh.1,
     correct := correctIndex,
     explanation := "The text provides information about ".data ++ keyWord ++
       " that supports this conclusion.".data }, sh.2)

namespace AIService

/-- The stopword regex of `generateEnhancedLocalQuiz` (AIService.ts line
542), tested case-insensitively as a full match. -/
def quizStopWords : List JStr :=
  ["the", "and", "but", "for", "are", "was", "were", "been", "have", "has",
   "will", "would", "could", "should", "very", "much", "many", "some",
   "most", "each", "every"].map String.data

/-- The loop state of `generateEnhancedLocalQuiz`'s `while` loop
(AIService.ts lines 530-579): the questions built so far, the segment
cursor, and the remaining random stream. -/
structure QuizState where
  questions : List QuizQuestion
  segIdx : Nat
  rs : List Nat

/-- One iteration of the `while` body (AIService.ts lines 532-578):
examine the current segment, possibly push one question, advance the
cursor, and wrap the cursor back to `0` when the end is reached with
questions still missing. -/
def quizSegStep (textSegments : List JStr) (count : Nat) (st : QuizState) : QuizState :=
  let segment := jsTrim (textSegments.getD st.segIdx [])
  let segmentSentences := (jsSplitRuns isSentSep segment).filter
    fun s => (jsTrim s).length > 20
  let st1 :=
    match segmentSentences with
    | [] => st
    | s0 :: _ =>
      let sentence := jsTrim s0
      let words := (jsSplitRuns jsIsWs sentence).filter
        fun (w : JStr) => w.length > 3 ∧ ¬ (jsLower w ∈ quizStopWords)
      if words.length ≥ 2 then
        let targetWord := findKeyWord words sentence
        let qi :=
          match st.questions.length % 4 with
          | 0 => generateFillBlankQuestion sentence targetWord st.questions.length st.rs
          | 1 => generateDefinitionQuestion segment targetWord st.questions.length st.rs
          | 2 => generateContextQuestion segment sentence st.questions.length st.rs
          | _ => generateComprehensionQuestion segment sentence st.questions.length st.rs
        { st with questions := st.questions ++ [qi.1], rs := qi.2 }
      else st
  let idx2 := st1.segIdx + 1
  if idx2 ≥ textSegments.length ∧ st1.questions.length < count ∧ textSegments.length > 0 then
    { st1 with segIdx := 0 }
  else
    { st1 with segIdx := idx2 }

/-- The `while (questions.length < count && segmentIndex <
textSegments.length)` loop, run for at most `fuel` iterations; the flag is
`true` when the loop exited by its own condition (the source has no fuel:
when the flag is `false` for every fuel, the source loops forever). -/
def quizRun (textSegments : List JStr) (count : Nat) :
    Nat → QuizState → QuizState × Bool
  | 0, st => (st, false)
  | fuel + 1, st =>
    if st.questions.length < count ∧ st.segIdx < textSegments.length then
      quizRun textSegments count fuel (quizSegStep textSegments count st)
    else (st, true)

/-- `generateEnhancedLocalQuiz` (AIService.ts lines 522-582): paragraph
segments (blank-line separated, more than 50 trimmed characters) when any
exist, else sentence segments (more than 20 trimmed characters); then the
cyclic question loop. -/
def generateEnhancedLocalQuiz (text : JStr) (count : Nat) (fuel : Nat)
    (rs : List Nat) : List QuizQuestion × Bool :=
  let sentences := (jsSplitRuns isSentSep text).filter fun s => (jsTrim s).length > 20
  let paragraphs := (jsSplitParas text).filter fun p => (jsTrim p).length > 50
  let textSegments := if paragraphs.length > 0 then paragraphs else sentences
  let r := quizRun textSegments count fuel { questions := [], segIdx := 0, rs := rs }
  (r.1.questions, r.2)

end AIService

namespace SummariesService

/-- The (shorter) stopword regex of this copy's `generateEnhancedLocalQuiz`
(SummariesService.ts line 530). -/
def quizStopWords : List JStr :=
  ["the", "and", "but", "for", "are", "was", "were", "been", "have", "has",
   "will", "would", "could", "should"].map String.data

/-- The `for` loop body of this copy's `generateEnhancedLocalQuiz`
(SummariesService.ts lines 518-556): iterate over the first
`min(count, paragraphs.length)` paragraphs with loop index `i`, taking the
middle sentence, requiring more than 3 usable words, and rotating three
question types by `i % 3`; the question index passed on is `i` itself. -/
def quizGo : List (Nat × JStr) → List Nat → List QuizQuestion
  | [], _ => []
  | (i, para) :: rest, rs =>
    let paragraph := jsTrim para
    let sentences := (jsSplitRuns isSentSep paragraph).filter
      fun s => (jsTrim s).length > 20
    if sentences.length > 0 then
      let sentence := jsTrim (sentences.getD (sentences.length / 2) [])
      let words := (jsSplitRuns jsIsWs sentence).filter
        fun (w : JStr) => w.length > 3 ∧ ¬ (jsLower w ∈ quizStopWords)
      if words.length > 3 then
        let targetWord := findKeyWord words sentence
        let qi :=
          match i % 3 with
          | 0 => generateFillBlankQuestion sentence targetWord i rs
          | 1 => generateDefinitionQuestion paragraph targetWord i rs
          | _ => generateContextQuestion paragraph sentence i rs
        qi.1 :: quizGo rest qi.2
      else quizGo rest rs
    else quizGo rest rs

/-- `generateEnhancedLocalQuiz` of SummariesService.ts (lines 514-559):
paragraph segments only (more than 100 trimmed characters), no sentence
fallback and no cyclic wrap-around. -/
def generateEnhancedLocalQuiz (text : JStr) (count : Nat) (rs : List Nat) :
    List QuizQuestion :=
  let paragraphs := (jsSplitParas text).filter fun p => (jsTrim p).length > 100
  quizGo (paragraphs.take count).enum rs

end SummariesService

namespace AIService

/-- The message stopword set of `extractQuestionKeywords`
(AIService.ts line 896). -/
def chatStopWords : List JStr :=
  ["what", "is", "the", "a", "an", "and", "or", "but", "in", "on", "at",
   "to", "for", "of", "with", "by", "from", "up", "about", "into",
   "through", "during", "before", "after", "above", "below", "between",
   "among", "can", "could", "should", "would", "how", "why", "when",
   "where"].map String.data

/-- `extractQuestionKeywords` (AIService.ts lines 894-901). -/
def extractQuestionKeywords (message : JStr) : List JStr :=
  (((jsSplitRuns jsIsWs (jsLower message)).filter
    fun (w : JStr) => w.length > 3 ∧ ¬ (w ∈ chatStopWords)).take 5)

/-- Non-overlapping count of case-insensitive occurrences of `kw`, the match
count of `sentence.match(new RegExp(keyword, 'gi'))` for a keyword with no
regex metacharacters; driven by fuel so the recursion is structural. -/
def countOccCIGo (kw : JStr) : Nat → JStr → Nat
  | 0, _ => 0
  | fuel + 1, s =>
    match s with
    | [] => 0
    | _ :: rest =>
      if kw ≠ [] ∧ jsStartsWithCI s kw then 1 + countOccCIGo kw fuel (s.drop kw.length)
      else countOccCIGo kw fuel rest

/-- Case-insensitive occurrence count (see `countOccCIGo`). -/
def countOccCI (s kw : JStr) : Nat := countOccCIGo kw s.length s

/-- `findRelevantContent` (AIService.ts lines 903-924): score each sentence
by total keyword occurrences, keep the positively scored ones sorted stably
by score descending, take three, else fall back to the first 500 characters
of the context. -/
def findRelevantContent (context : JStr) (keywords : List JStr) : JStr :=
  let sentences := (jsSplitRuns isSentSep context).filter
    fun s => (jsTrim s).length > 20
  let scored := sentences.map fun sentence =>
    (jsTrim sentence, keywords.foldl (fun score kw => score + countOccCI sentence kw) 0)
  let relevantSentences :=
    ((sortDescBy Prod.snd (scored.filter fun t => t.2 > 0)).take 3).map Prod.fst
  if relevantSentences.length > 0 then jsJoin ". ".data relevantSentences
  else jsSubstring context 0 500

/-- Leftmost match of `kw1(\s+kw2)?\s+([^?]+)` (case-insensitive), the shape
of the term-extraction regexes of `extractTermFromQuestion`: the greedy
whitespace before the capture backtracks until the greedy `[^?]+` group is
nonempty. -/
def matchIntro (kw1 : JStr) (kw2 : Option JStr) (s : JStr) : Option JStr :=
  (List.range s.length).findSome? fun p =>
    match ciDrop kw1 (s.drop p) with
    | none => none
    | some r1 =>
      match kw2 with
      | none => grabGroupPlus (fun c => c ≠ '?') r1
      | some k2 =>
        let n := wsRunLen r1
        if n = 0 then none
        else
          match ciDrop k2 (r1.drop n) with
          | none => none
          | some r2 => grabGroupPlus (fun c => c ≠ '?') r2

/-- `extractTermFromQuestion` (AIService.ts lines 926-942): the four
patterns in order, returning the trimmed first capture. -/
def extractTermFromQuestion (message : JStr) : Option JStr :=
  match matchIntro "what".data (some "is".data) message with
  | some m => some (jsTrim m)
  | none =>
    match matchIntro "define".data none message with
    | some m => some (jsTrim m)
    | none =>
      match matchIntro "explain".data none message with
      | some m => some (jsTrim m)
      | none =>
        match matchIntro "what".data (some "are".data) message with
        | some m => some (jsTrim m)
        | none => none

/-- `extractDefinitionFromContext` (AIService.ts lines 944-956). -/
def extractDefinitionFromContext (context term : JStr) : Option JStr :=
  let sentences := jsSplitRuns isSentSep context
  let termLower := jsLower term
  match sentences.filter (fun sentence =>
      let sl := jsLower sentence
      jsIncludes sl termLower ∧
        (jsIncludes sl " is ".data ∨ jsIncludes sl " refers to ".data ∨
          jsIncludes sl " means ".data)) with
  | [] => none
  | s :: _ => some (jsTrim s)

/-- The importance keywords of `createSmartSummary` (AIService.ts line 960). -/
def smartKeyWords : List JStr :=
  ["important", "key", "main", "primary", "essential", "crucial",
   "significant", "fundamental"].map String.data

/-- `createSmartSummary` (AIService.ts lines 958-971). -/
def createSmartSummary (content : JStr) : JStr :=
  let sentences := (jsSplitRuns isSentSep content).filter
    fun s => (jsTrim s).length > 20
  let importantSentences := (sentences.filter fun sentence =>
    smartKeyWords.any fun word => jsIncludes (jsLower sentence) word).take 2
  if importantSentences.length > 0 then
    jsJoin ". ".data importantSentences ++ ".".data
  else
    jsJoin ". ".data (sentences.take 2) ++ ".".data

/-- `generateFollowUpSuggestion` (AIService.ts lines 973-977). -/
def generateFollowUpSuggestion (keywords : List JStr) : JStr :=
  match keywords with
  | [] => "Feel free to ask more specific questions about your study material.".data
  | k :: _ => "Would you like me to explain more about ".data ++ k ++ "?".data

/-- The physics trigger vocabulary of `containsPhysicsTerms`
(AIService.ts line 980). -/
def physicsTerms : List JStr :=
  ["refraction", "reflection", "light", "wave", "wavelength", "frequency",
   "interference", "diffraction", "optics", "physics", "phenomenon",
   "rainbow", "prism", "lens", "index"].map String.data

/-- `containsPhysicsTerms` (AIService.ts lines 979-982). -/
def containsPhysicsTerms (message : JStr) : Bool :=
  physicsTerms.any fun term => jsIncludes (jsLower message) term

/-- `handlePhysicsQuestion` (AIService.ts lines 984-1001). -/
def handlePhysicsQuestion (message context : JStr) : JStr :=
  let lowerMessage := jsLower message
  if jsIncludes lowerMessage "refraction".data then
    let refractionInfo := findRelevantContent context
      ["refraction".data, "light".data, "wave".data]
    "Refraction is the bending of light as it passes through different media. ".data ++
      (if refractionInfo ≠ [] then "From your notes: ".data ++ refractionInfo
       else "It occurs because light travels at different speeds in different materials, causing the light ray to change direction at the boundary between two media.".data)
  else if jsIncludes lowerMessage "rainbow".data then
    "A rainbow forms through refraction and dispersion of white light. When sunlight enters water droplets, it refracts, separates into different colors (dispersion), reflects off the back of the droplet, and refracts again as it exits, creating the spectrum of colors we see.".data
  else if jsIncludes lowerMessage "interference".data ∨ jsIncludes lowerMessage "double slit".data then
    "Young's double slit experiment demonstrates wave interference. When coherent light passes through two parallel slits, it creates an interference pattern of bright and dark fringes, proving the wave nature of light.".data
  else
    "Based on your physics study material: ".data ++ jsSubstring context 0 300 ++ "...".data

/-- `generateUniversalResponse` (AIService.ts lines 1003-1062): the static
knowledge table keyed by substring triggers, evaluated in declared order. -/
def generateUniversalResponse (message : JStr) : JStr :=
  let lowerMessage := jsLower message
  if jsIncludes lowerMessage "biggest lake".data ∨ jsIncludes lowerMessage "largest lake".data then
    "The world's biggest lake by surface area is the Caspian Sea, located between Europe and Asia. It covers approximately 371,000 square kilometers (143,200 square miles). Despite being called a 'sea,' it's technically a lake because it's completely enclosed by land and not directly connected to the world's oceans.".data
  else if jsIncludes lowerMessage "quantum physics".data then
    "Quantum physics is the branch of physics that studies matter and energy at the smallest scales, typically at the level of atoms and subatomic particles. Key principles include wave-particle duality (particles can behave like waves), uncertainty principle (you can't precisely know both position and momentum), and quantum entanglement (particles can be mysteriously connected regardless of distance).".data
  else if (jsIncludes lowerMessage " ai ".data ∨ jsStartsWith lowerMessage "ai ".data ∨
      jsEndsWith lowerMessage " ai".data ∨ lowerMessage = "ai".data) ∨
      jsIncludes lowerMessage "artificial intelligence".data then
    "Artificial Intelligence (AI) refers to computer systems that can perform tasks typically requiring human intelligence, such as learning, reasoning, problem-solving, and understanding language. Modern AI includes machine learning, neural networks, and large language models like the one you're chatting with right now!".data
  else if jsIncludes lowerMessage "networking".data ∨
      (jsIncludes lowerMessage "explain".data ∧ jsIncludes lowerMessage "network".data) then
    "Networking refers to the practice of connecting computers and devices to share resources and communicate. It includes: 1) **Computer Networks**: LANs, WANs, Internet protocols (TCP/IP, HTTP, DNS), 2) **Professional Networking**: Building relationships for career growth and opportunities, 3) **Network Types**: Ethernet, Wi-Fi, cellular networks, 4) **Network Security**: Firewalls, VPNs, encryption, 5) **Social Networking**: Platforms like LinkedIn for professional connections. The field covers both technical infrastructure and human relationship building.".data
  else if jsIncludes lowerMessage "blockchain".data then
    "Blockchain is a distributed digital ledger technology that maintains a continuously growing list of records (blocks) linked and secured using cryptography. Each block contains transaction data, timestamps, and cryptographic hashes. It's the technology behind cryptocurrencies like Bitcoin and has applications in supply chain management, digital identity, and smart contracts.".data
  else if jsIncludes lowerMessage "productivity".data then
    "Here are some effective productivity tips: 1) Use the Pomodoro Technique (25-minute focused work sessions), 2) Prioritize tasks using the Eisenhower Matrix (urgent vs important), 3) Eliminate distractions during work time, 4) Take regular breaks, 5) Set specific, achievable goals, and 6) Use tools like calendars and task lists to stay organized.".data
  else if jsIncludes lowerMessage "pakistan".data ∧
      (jsIncludes lowerMessage "biggest university".data ∨ jsIncludes lowerMessage "largest university".data) then
    "Pakistan's biggest university by enrollment is the University of the Punjab (PU) in Lahore, established in 1882. It's one of the oldest and largest universities in Pakistan with over 600,000 students across its various campuses and affiliated colleges. Other major universities in Pakistan include Karachi University, Quaid-i-Azam University Islamabad, and Lahore University of Management Sciences (LUMS).".data
  else if jsIncludes lowerMessage "pakistan".data ∧ jsIncludes lowerMessage "university".data then
    "Pakistan has many renowned universities including the University of the Punjab (largest by enrollment), Quaid-i-Azam University Islamabad, University of Karachi, Lahore University of Management Sciences (LUMS), National University of Sciences and Technology (NUST), and Pakistan Institute of Engineering and Applied Sciences (PIEAS). These institutions offer diverse programs and are recognized for their academic excellence.".data
  else if jsIncludes lowerMessage "india".data ∧
      (jsIncludes lowerMessage "biggest university".data ∨ jsIncludes lowerMessage "largest university".data) then
    "India's biggest university by enrollment is Indira Gandhi National Open University (IGNOU) in New Delhi, established in 1985. It has over 4 million students enrolled across various programs through distance learning. For traditional universities, the University of Mumbai and University of Calcutta are among the largest with hundreds of thousands of students. Other major universities include Jawaharlal Nehru University (JNU), Delhi University, and the Indian Institutes of Technology (IITs).".data
  else if jsIncludes lowerMessage "india".data ∧ jsIncludes lowerMessage "university".data then
    "India has many prestigious universities including Indira Gandhi National Open University (IGNOU) - the largest by enrollment, Indian Institutes of Technology (IITs), Indian Institutes of Management (IIMs), Jawaharlal Nehru University, Delhi University, University of Mumbai, University of Calcutta, Banaras Hindu University, and Aligarh Muslim University. These institutions are known for their academic excellence and research contributions.".data
  else if jsIncludes lowerMessage "pakistan".data ∧ jsIncludes lowerMessage "geography".data then
    "Pakistan's geography is quite diverse and interesting! **Location**: Pakistan is in South Asia, bordered by India (east), Afghanistan & Iran (west), China (north), and Arabian Sea (south). **Major Rivers**: The Indus River is the main river, flowing north to south. **Mountains**: The north has beautiful mountain ranges like the Himalayas, Karakoram (K2 mountain), and Hindu Kush. **Plains**: The middle part has fertile plains perfect for farming. **Deserts**: The Thar Desert is in the southeast. **Climate**: Hot summers, mild winters, with monsoon rains in summer. **Provinces**: Punjab, Sindh, Balochistan (largest), Khyber Pakhtunkhwa, and Gilgit-Baltistan. The country covers about 796,095 square kilometers.".data
  else if jsIncludes lowerMessage "president".data ∧
      (jsIncludes lowerMessage "america".data ∨ jsIncludes lowerMessage "usa".data ∨
        jsIncludes lowerMessage "united states".data) then
    "As of September 2025, Joe Biden is the President of the United States. He took office on January 20, 2021, as the 46th President. However, for the most current information about political leadership, I'd recommend checking recent news sources as this information can change, especially around election periods.".data
  else if jsIncludes lowerMessage "biggest university".data ∨ jsIncludes lowerMessage "largest university".data then
    "The biggest university in the world by enrollment is typically considered to be Indira Gandhi National Open University (IGNOU) in India, with over 4 million students. For traditional campus-based universities, the University of Central Florida in the US and Anadolu University in Turkey are among the largest with hundreds of thousands of students each.".data
  else
    "I'm here to help you with any questions! I can provide information on a wide range of topics, help with problem-solving, explain concepts, assist with writing, or just have a conversation. Could you provide a bit more detail about what you'd like to know?".data

/-- The no-context greeting of `generateLocalChatResponse`
(AIService.ts line 839). -/
def chatGreeting : JStr :=
  "Hello! I'm your AI assistant. I can help you with any questions, provide explanations on various topics, assist with problem-solving, and much more. What can I help you with today?".data

/-- `generateLocalChatResponse` (AIService.ts lines 832-892); `context` is
the optional second parameter. -/
def generateLocalChatResponse (message : JStr) (context : Option JStr) : JStr :=
  let lowerMessage := jsLower message
  match context with
  | none =>
    if jsIncludes lowerMessage "hello".data ∨ jsIncludes lowerMessage "hi".data then
      chatGreeting
    else if jsIncludes lowerMessage "what is".data ∨ jsIncludes lowerMessage "what are".data then
      generateUniversalResponse message
    else if jsIncludes lowerMessage "how to".data ∨ jsIncludes lowerMessage "how do".data then
      generateUniversalResponse message
    else if jsIncludes lowerMessage "explain".data ∨ jsIncludes lowerMessage "tell me about".data then
      generateUniversalResponse message
    else
      generateUniversalResponse message
  | some ctx =>
    let questionKeywords := extractQuestionKeywords message
    let relevantContent := findRelevantContent ctx questionKeywords
    if jsIncludes lowerMessage "what is".data ∨ jsIncludes lowerMessage "define".data ∨
        jsIncludes lowerMessage "explain".data then
      let fallbackReply :=
        "I found this relevant information in your notes: ".data ++
          jsSubstring relevantContent 0 400 ++ "...".data
      match extractTermFromQuestion message with
      | some term =>
        if term ≠ [] ∧ jsIncludes relevantContent (jsLower term) then
          match extractDefinitionFromContext relevantContent term with
          | some d =>
            if d = [] then
              "Based on your notes, \"".data ++ term ++
                "\" is mentioned in the context of: ".data ++
                jsSubstring relevantContent 0 300 ++ "...".data
            else d
          | none =>
            "Based on your notes, \"".data ++ term ++
              "\" is mentioned in the context of: ".data ++
              jsSubstring relevantContent 0 300 ++ "...".data
        else fallbackReply
      | none => fallbackReply
    else if jsIncludes lowerMessage "how".data ∨ jsIncludes lowerMessage "why".data ∨
        jsIncludes lowerMessage "when".data then
      "Based on your study material: ".data ++ jsSubstring relevantContent 0 400 ++
        "... ".data ++ generateFollowUpSuggestion questionKeywords
    else if jsIncludes lowerMessage "summary".data ∨ jsIncludes lowerMessage "summarize".data then
      "Here's a summary of the relevant content from your notes: ".data ++
        createSmartSummary relevantContent
    else if jsIncludes lowerMessage "example".data ∨ jsIncludes lowerMessage "application".data then
      "From your study material, here are the key points about ".data ++
        jsJoin ", ".data questionKeywords ++ ": ".data ++
        jsSubstring relevantContent 0 350 ++ "...".data
    else if containsPhysicsTerms message then
      handlePhysicsQuestion message relevantContent
    else
      "I found relevant information about \"".data ++ jsJoin ", ".data questionKeywords ++
        "\" in your notes: ".data ++ jsSubstring relevantContent 0 300 ++
        "... Would you like me to elaborate on any specific aspect?".data

end AIService

/-! ### Concrete inputs used by the scenario theorems and counterexamples -/

/-- The scenario text of the specification's Photosynthesis test case. -/
def photoText : JStr :=
  "Photosynthesis is the process by which plants convert light energy into chemical energy. This process is essential for plant growth.".data

/-- A single-sentence text none of whose words passes the quiz word filter
(every word is 2 characters long): the segment never yields a question. -/
def starveText : JStr := "aa aa aa aa aa aa aa aa aa aa aa".data

/-- A 40-word single-sentence input (no blank lines), for the
`generateQuiz(text, 5)` scenario. -/
def fortyWordText : JStr :=
  "The solar panels on the roof collect sunlight during the day and store surplus electrical energy in large battery banks so the whole building can keep running smoothly through long cloudy stretches and dark gray winter evenings without external power".data

/-- A sentence whose highest-scoring key word is the all-lowercase
palindrome `radar`: its reversed-string rhyme fallback equals the word
itself and is filtered out of the distractors. -/
def radarText : JStr := "radar maps echo with wide gaps here".data

/-- A single sentence of 68 characters: above the 50-character paragraph
threshold of the AIService quiz, below the 100-character threshold of the
SummariesService copy. -/
def elephantText : JStr :=
  "Elephants wander across grassy plains during warm summer afternoons".data

/-- Eleven definitional sentences: the definitional-pattern path yields
eleven concepts. -/
def elevenDefsText : JStr :=
  "Term1 is something quite remarkable indeed. Term2 is something quite remarkable indeed. Term3 is something quite remarkable indeed. Term4 is something quite remarkable indeed. Term5 is something quite remarkable indeed. Term6 is something quite remarkable indeed. Term7 is something quite remarkable indeed. Term8 is something quite remarkable indeed. Term9 is something quite remarkable indeed. TermA is something quite remarkable indeed. TermB is something quite remarkable indeed.".data

/-- A text with no definitional pattern whose frequency fallback extracts a
51-character term. -/
def longTermText : JStr :=
  "aaaaaaaaaaaaaaaaaaaaaaaaaaaaaaaaaaaaaaaaaaaaaaaaaaa hello world again hello world".data

/-! ### C2: the Fisher-Yates shuffle -/

/-- C2.  For every options array, every value in it and every stream of
random draws, the shuffled array is a permutation of the original, and the
recomputed correct index (`indexOf` of the correct value in the post-shuffle
array) is in bounds and indexes an element equal to that value. -/
theorem shuffle_preserves_and_relocates (l : List JStr) (v : JStr)
    (rs : List Nat) (h : v ∈ l) :
    ((shuffleArray l rs).1).Perm l ∧
    0 ≤ jsIndexOf (shuffleArray l rs).1 v ∧
    (jsIndexOf (shuffleArray l rs).1 v).toNat < (shuffleArray l rs).1.length ∧
    ∀ d, ((shuffleArray l rs).1).getD (jsIndexOf (shuffleArray l rs).1 v).toNat d = v := by
  have hp := shuffleArray_perm l rs
  have hm : v ∈ (shuffleArray l rs).1 := hp.mem_iff.mpr h
  obtain ⟨h0, hlen, hget⟩ := jsIndexOf_mem _ v hm
  exact ⟨hp, h0, hlen, hget⟩

/-- Witness for C2 at a concrete array, value and stream. -/
theorem shuffle_preserves_and_relocates_witness :
    ((shuffleArray (["b", "a", "c", "d"].map String.data) [2, 0, 1]).1).Perm
      (["b", "a", "c", "d"].map String.data) ∧
    0 ≤ jsIndexOf (shuffleArray (["b", "a", "c", "d"].map String.data) [2, 0, 1]).1 "a".data ∧
    (jsIndexOf (shuffleArray (["b", "a", "c", "d"].map String.data) [2, 0, 1]).1 "a".data).toNat <
      (shuffleArray (["b", "a", "c", "d"].map String.data) [2, 0, 1]).1.length ∧
    ∀ d, ((shuffleArray (["b", "a", "c", "d"].map String.data) [2, 0, 1]).1).getD
      (jsIndexOf (shuffleArray (["b", "a", "c", "d"].map String.data) [2, 0, 1]).1 "a".data).toNat d = "a".data :=
  shuffle_preserves_and_relocates (["b", "a", "c", "d"].map String.data) "a".data
    [2, 0, 1] (by decide)

/-! ### C3: the quiz loop does not terminate on an ineligible segment -/

theorem quizRun_starve (fuel : Nat) (rs : List Nat) :
    (AIService.quizRun [starveText] 1 fuel { questions := [], segIdx := 0, rs := rs }).2 = false := by
  induction fuel with
  | zero => rfl
  | succ n ih =>
    have h : AIService.quizRun [starveText] 1 (n + 1) { questions := [], segIdx := 0, rs := rs } =
        AIService.quizRun [starveText] 1 n { questions := [], segIdx := 0, rs := rs } := rfl
    rw [h]
    exact ih

/-- C3.  The source's `while` loop wraps `segmentIndex` back to `0` whenever
the end is reached with questions still missing, having pushed nothing when
no segment yields at least 2 usable key words — so on `starveText` with
`count = 1` the loop never exits: for every iteration bound the run is still
unfinished (second component `false`), with no questions produced.  The
specification instead promises termination with a possibly shorter output. -/
theorem quiz_segment_starvation_diverges (fuel : Nat) (rs : List Nat) :
    (AIService.generateEnhancedLocalQuiz starveText 1 fuel rs).2 = false ∧
    (AIService.generateEnhancedLocalQuiz starveText 1 fuel rs).1 = [] := by
  constructor
  · show (AIService.quizRun [starveText] 1 fuel { questions := [], segIdx := 0, rs := rs }).2 = false
    exact quizRun_starve fuel rs
  · show (AIService.quizRun [starveText] 1 fuel { questions := [], segIdx := 0, rs := rs }).1.questions = []
    induction fuel with
    | zero => rfl
    | succ n ih =>
      have h : AIService.quizRun [starveText] 1 (n + 1) { questions := [], segIdx := 0, rs := rs } =
          AIService.quizRun [starveText] 1 n { questions := [], segIdx := 0, rs := rs } := rfl
      rw [h]
      exact ih

/-! ### C6: the Photosynthesis scenario -/

set_option maxRecDepth 10000 in
/-- C6.  On the Photosynthesis text the first extracted concept is
`Photosynthesis`, its definition starts with "the process by which", and the
flashcard synthesizer with `count = 1` returns exactly the one card of the
scenario. -/
theorem photosynthesis_scenario :
    ((AIService.extractKeyConceptsFromText photoText).map ExtractedConcept.term).head? =
      some "Photosynthesis".data ∧
    jsStartsWith
      (((AIService.extractKeyConceptsFromText photoText).map ExtractedConcept.definition).headD [])
      "the process by which".data = true ∧
    AIService.generateEnhancedLocalFlashcards photoText 1 =
      [{ question := "What is Photosynthesis?".data,
         answer := "the process by which plants convert light energy into chemical energy".data }] := by
  refine ⟨by decide, by decide, by decide⟩

/-! ### C8: the chat responder greeting -/

set_option maxRecDepth 20000 in
/-- C8.  With no context and the message `hello`, the local chat responder
returns its fixed greeting, which mentions neither uploads, nor documents,
nor study material (checked case-insensitively on the reply). -/
theorem chat_hello_greeting :
    AIService.generateLocalChatResponse "hello".data none = AIService.chatGreeting ∧
    jsIncludes (jsLower AIService.chatGreeting) "upload".data = false ∧
    jsIncludes (jsLower AIService.chatGreeting) "document".data = false ∧
    jsIncludes (jsLower AIService.chatGreeting) "study".data = false ∧
    jsIncludes (jsLower AIService.chatGreeting) "material".data = false := by
  refine ⟨by decide, by decide, by decide, by decide, by decide⟩

/-! ### C9: empty input -/

/-- C9.  On the empty string the concept extractor returns the empty
sequence and the local summary returns the degenerate constant `"."`
(`[] .slice(0,3).join('. ') + '.'`); both embedded functions are total, so
neither operation can throw. -/
theorem empty_input_safe :
    AIService.extractKeyConceptsFromText [] = [] ∧
    AIService.generateLocalSummary [] = ".".data := by
  refine ⟨by decide, by decide⟩

/-! ### C4 and C5: bounds on the concept extractor -/

theorem conceptGuard_bounds {sentences : List JStr} {index : Nat}
    {m : JStr × JStr} {c : ExtractedConcept}
    (h : conceptGuard sentences index m = some c) :
    2 < c.term.length ∧ c.term.length < 50 ∧ 10 < c.definition.length := by
  unfold conceptGuard at h
  dsimp only at h
  split at h
  · rename_i hcond
    obtain ⟨h1, h2, h3⟩ := hcond
    cases h
    exact ⟨h1, h2, h3⟩
  · exact absurd h (by simp)

theorem conceptOfSentence_bounds {sentences : List JStr} {index : Nat}
    {s : JStr} {c : ExtractedConcept}
    (h : conceptOfSentence sentences index s = some c) :
    2 < c.term.length ∧ c.term.length < 50 ∧ 10 < c.definition.length := by
  unfold conceptOfSentence at h
  obtain ⟨o, ho, hid⟩ := List.exists_of_findSome?_eq_some h
  rw [List.mem_map] at ho
  obtain ⟨m?, _, hmo⟩ := ho
  subst hmo
  simp only [id] at hid
  obtain ⟨m, _, hg⟩ := Option.bind_eq_some.mp hid
  exact conceptGuard_bounds hg

theorem patternConcepts_bounds {text : JStr} {c : ExtractedConcept}
    (h : c ∈ AIService.patternConcepts text) :
    2 < c.term.length ∧ c.term.length < 50 ∧ 10 < c.definition.length := by
  unfold AIService.patternConcepts at h
  obtain ⟨p, _, hp⟩ := List.mem_filterMap.mp h
  exact conceptOfSentence_bounds hp

theorem insertDescBy_perm (key : α → Nat) (x : α) :
    ∀ l : List α, (insertDescBy key x l).Perm (x :: l) := by
  intro l
  induction l with
  | nil => simp [insertDescBy]
  | cons y ys ih =>
    by_cases hc : key y > key x
    · have h1 : insertDescBy key x (y :: ys) = y :: insertDescBy key x ys := by
        simp [insertDescBy, hc]
      rw [h1]
      exact (ih.cons y).trans (List.Perm.swap _ _ _)
    · have h1 : insertDescBy key x (y :: ys) = x :: y :: ys := by
        simp [insertDescBy, hc]
      rw [h1]

theorem sortDescBy_perm (key : α → Nat) :
    ∀ l : List α, (sortDescBy key l).Perm l := by
  intro l
  induction l with
  | nil => simp [sortDescBy]
  | cons x xs ih =>
    exact (insertDescBy_perm key x (sortDescBy key xs)).trans (ih.cons x)

theorem bumpCount_key_prop (P : JStr → Prop) (k : JStr) (hk : P k) :
    ∀ m : List (JStr × Nat), (∀ q ∈ m, P q.1) → ∀ p ∈ bumpCount m k, P p.1 := by
  intro m
  induction m with
  | nil =>
    intro _ p hp
    simp only [bumpCount, List.mem_singleton] at hp
    subst hp
    exact hk
  | cons q qs ih =>
    obtain ⟨k', n⟩ := q
    intro hm p hp
    by_cases hq : k' = k
    · have heq : bumpCount ((k', n) :: qs) k = (k', n + 1) :: qs := by
        simp [bumpCount, hq]
      rw [heq] at hp
      rcases List.mem_cons.mp hp with h | h
      · subst h; exact hm (k', n) (List.mem_cons_self _ _)
      · exact hm p (List.mem_cons_of_mem _ h)
    · have heq : bumpCount ((k', n) :: qs) k = (k', n) :: bumpCount qs k := by
        simp [bumpCount, hq]
      rw [heq] at hp
      rcases List.mem_cons.mp hp with h | h
      · subst h; exact hm (k', n) (List.mem_cons_self _ _)
      · exact ih (fun r hr => hm r (List.mem_cons_of_mem _ hr)) p h

theorem termFreq_key_length (text : JStr) :
    ∀ p ∈ (jsSplitRuns jsIsWs text).foldl
      (fun m word =>
        let cleanWord := jsLower (word.filter jsIsWordChar)
        if cleanWord.length > 4 ∧ ¬ (cleanWord ∈ importantStopWords)
        then bumpCount m cleanWord else m)
      [], 4 < p.1.length := by
  have main : ∀ (ws : List JStr) (acc : List (JStr × Nat)),
      (∀ q ∈ acc, 4 < q.1.length) →
      ∀ p ∈ ws.foldl
        (fun m word =>
          let cleanWord := jsLower (word.filter jsIsWordChar)
          if cleanWord.length > 4 ∧ ¬ (cleanWord ∈ importantStopWords)
          then bumpCount m cleanWord else m)
        acc, 4 < p.1.length := by
    intro ws
    induction ws with
    | nil => intro acc hacc p hp; exact hacc p hp
    | cons w ws ih =>
      intro acc hacc p hp
      rw [List.foldl_cons] at hp
      refine ih _ ?_ p hp
      dsimp only
      split
      · rename_i hcond
        exact bumpCount_key_prop (fun k => 4 < k.length) _ hcond.1 acc hacc
      · exact hacc
  exact main _ [] (by simp)

theorem extractImportantTerms_length {text : JStr} {w : JStr}
    (h : w ∈ extractImportantTerms text) : 4 < w.length := by
  unfold extractImportantTerms at h
  dsimp only at h
  rw [List.mem_map] at h
  obtain ⟨p, hp, hw⟩ := h
  subst hw
  have hp2 := List.mem_of_mem_take hp
  have hp3 := (sortDescBy_perm Prod.snd _).mem_iff.mp hp2
  exact termFreq_key_length text p hp3

theorem fallbackConcepts_bounds {text : JStr} {c : ExtractedConcept}
    (h : c ∈ AIService.fallbackConcepts text) :
    4 < c.term.length ∧ 30 < c.definition.length := by
  unfold AIService.fallbackConcepts at h
  obtain ⟨w, hw, hc⟩ := List.mem_filterMap.mp h
  dsimp only at hc
  rcases hfs : (AIService.conceptSentences text).filter
      (fun s => jsIncludes (jsLower s) (jsLower w)) with _ | ⟨s0, rest⟩
  · rw [hfs] at hc; exact absurd hc (by simp)
  · rw [hfs] at hc
    cases hc
    constructor
    · exact extractImportantTerms_length hw
    · have hs0 : s0 ∈ (AIService.conceptSentences text).filter
          (fun s => jsIncludes (jsLower s) (jsLower w)) := by
        rw [hfs]; exact List.mem_cons_self _ _
      have hs1 : s0 ∈ AIService.conceptSentences text := List.mem_of_mem_filter hs0
      unfold AIService.conceptSentences at hs1
      have hs2 := List.of_mem_filter hs1
      exact of_decide_eq_true hs2

set_option maxRecDepth 10000 in
/-- C5 counterexample.  On `longTermText` the definitional-pattern path is
empty and the frequency fallback returns four concepts; the third has a term
of 51 characters, refuting "term length strictly between 2 and 50" for the
extractor's output. -/
theorem concept_term_over_fifty :
    (AIService.extractKeyConceptsFromText longTermText).map
      (fun c => c.term.length) = [5, 5, 51, 5] := by
  decide

/-- C5, amended.  Every concept from the definitional-pattern path has a
term strictly between 2 and 50 characters and a definition of at least 10
(indeed more than 10) characters; every concept the extractor returns — on
either path — still has a term longer than 2 characters and a definition of
at least 10 characters, but the 50-character upper bound holds only on the
pattern path (the fallback path bounds terms below by 4 characters and
definitions below by 30, with no upper bound on the term). -/
theorem concept_field_bounds :
    (∀ text c, c ∈ AIService.patternConcepts text →
      2 < c.term.length ∧ c.term.length < 50 ∧ 10 ≤ c.definition.length) ∧
    (∀ text c, c ∈ AIService.extractKeyConceptsFromText text →
      2 < c.term.length ∧ 10 ≤ c.definition.length) := by
  constructor
  · intro text c h
    obtain ⟨h1, h2, h3⟩ := patternConcepts_bounds h
    exact ⟨h1, h2, by omega⟩
  · intro text c h
    unfold AIService.extractKeyConceptsFromText at h
    split at h
    · obtain ⟨h1, h2⟩ := fallbackConcepts_bounds h
      exact ⟨by omega, by omega⟩
    · obtain ⟨h1, h2, h3⟩ := patternConcepts_bounds h
      exact ⟨h1, by omega⟩

set_option maxRecDepth 10000 in
/-- Witness for C5's amended theorem at the Photosynthesis text's first
pattern concept. -/
theorem concept_field_bounds_witness :
    2 < ((AIService.patternConcepts photoText).getD 0
      { term := [], definition := [], context := [] }).term.length ∧
    ((AIService.patternConcepts photoText).getD 0
      { term := [], definition := [], context := [] }).term.length < 50 ∧
    10 ≤ ((AIService.patternConcepts photoText).getD 0
      { term := [], definition := [], context := [] }).definition.length := by
  have h : (AIService.patternConcepts photoText).getD 0
      { term := [], definition := [], context := [] } ∈
      AIService.patternConcepts photoText := by decide
  exact concept_field_bounds.1 photoText _ h

set_option maxRecDepth 10000 in
/-- C4 counterexample.  The AIService extractor returns 11 concepts on a
text with eleven definitional sentences: its output is not capped at 10. -/
theorem concept_cap_exceeded :
    (AIService.extractKeyConceptsFromText elevenDefsText).length = 11 := by
  decide

/-- C4, amended.  The SummariesService copy of the extractor caps its output
at 10 concepts for every input; the AIService copy is capped only on the
frequency-fallback path (taken when the pattern path found nothing), its
definitional-pattern path being deliberately uncapped. -/
theorem concept_cap :
    (∀ text, (SummariesService.extractKeyConceptsFromText text).length ≤ 10) ∧
    (∀ text, AIService.patternConcepts text = [] →
      (AIService.extractKeyConceptsFromText text).length ≤ 10) := by
  constructor
  · intro text
    unfold SummariesService.extractKeyConceptsFromText
    exact List.length_take_le 10 _
  · intro text h
    unfold AIService.extractKeyConceptsFromText
    rw [h]
    simp only [List.length_nil, if_pos rfl]
    unfold AIService.fallbackConcepts
    calc ((extractImportantTerms text).filterMap _).length
        ≤ (extractImportantTerms text).length := List.length_filterMap_le _ _
      _ ≤ 10 := by
          unfold extractImportantTerms
          dsimp only
          rw [List.length_map]
          exact List.length_take_le 10 _

set_option maxRecDepth 10000 in
/-- Witness for C4's amended theorem: on `longTermText` the pattern path is
empty and the output length is within the cap. -/
theorem concept_cap_witness :
    (AIService.extractKeyConceptsFromText longTermText).length ≤ 10 := by
  have h : AIService.patternConcepts longTermText = [] := by decide
  exact concept_cap.2 longTermText h

/-! ### C7: the 40-word single-sentence scenario -/

set_option maxRecDepth 20000 in
/-- C7 counterexample.  On a 40-word single-sentence input (no blank lines)
with `count = 5`, the AIService quiz generator returns exactly 5 questions —
not fewer: its single paragraph segment (above the 50-character threshold)
is eligible and the loop cycles it until `count` is reached. -/
theorem forty_word_returns_five :
    (AIService.generateEnhancedLocalQuiz fortyWordText 5 50 []).1.length = 5 := by
  decide

set_option maxRecDepth 20000 in
/-- C7, amended.  On the 40-word single-sentence input the AIService
generator terminates normally with exactly 5 questions whose ids are
pairwise distinct (`q1`..`q5`); the SummariesService copy — which takes each
paragraph at most once — returns exactly one question, fewer than 5.  The
embedded generators are total, so neither run can throw. -/
theorem forty_word_scenario :
    (AIService.generateEnhancedLocalQuiz fortyWordText 5 50 []).2 = true ∧
    ((AIService.generateEnhancedLocalQuiz fortyWordText 5 50 []).1.map QuizQuestion.id) =
      ["q1", "q2", "q3", "q4", "q5"].map String.data ∧
    (["q1", "q2", "q3", "q4", "q5"].map String.data).Nodup ∧
    (SummariesService.generateEnhancedLocalQuiz fortyWordText 5 []).length = 1 := by
  refine ⟨by decide, by decide, by decide, by decide⟩

/-! ### C10: the two local quiz generators are not equivalent -/

set_option maxRecDepth 20000 in
/-- C10 counterexample.  With the same random stream on the same input (one
68-character sentence) the AIService generator returns one question while
the SummariesService copy returns none: the two copies do not return equal
question sequences. -/
theorem quiz_copies_differ :
    (AIService.generateEnhancedLocalQuiz elephantText 1 10 []).1.length = 1 ∧
    SummariesService.generateEnhancedLocalQuiz elephantText 1 [] = [] := by
  refine ⟨by decide, by decide⟩

set_option maxRecDepth 20000 in
/-- C10, amended.  The two copies agree on the empty text (both return no
questions), but are not equivalent in general: run with the same random
stream on `elephantText` they return different question sequences (the
copies differ in paragraph threshold, 50 versus 100 characters, sentence
choice, eligibility bound and question-type rotation). -/
theorem quiz_copies_not_equivalent :
    (AIService.generateEnhancedLocalQuiz [] 5 10 []).1 = [] ∧
    SummariesService.generateEnhancedLocalQuiz [] 5 [] = [] ∧
    (AIService.generateEnhancedLocalQuiz elephantText 1 10 []).1 ≠
      SummariesService.generateEnhancedLocalQuiz elephantText 1 [] := by
  refine ⟨by decide, by decide, by decide⟩

/-! ### C1: invariants of the generated quiz questions -/

/-- The per-question invariant: between 2 and 4 options, and `correct` is a
valid index. -/
def QOk (q : QuizQuestion) : Prop :=
  2 ≤ q.options.length ∧ q.options.length ≤ 4 ∧
    0 ≤ q.correct ∧ q.correct.toNat < q.options.length

theorem shuffle_head_facts (c : JStr) (ds : List JStr) (rs : List Nat) :
    (shuffleArray (c :: ds) rs).1.length = ds.length + 1 ∧
    0 ≤ jsIndexOf (shuffleArray (c :: ds) rs).1 c ∧
    (jsIndexOf (shuffleArray (c :: ds) rs).1 c).toNat < (shuffleArray (c :: ds) rs).1.length ∧
    ∀ d, (shuffleArray (c :: ds) rs).1.getD
      (jsIndexOf (shuffleArray (c :: ds) rs).1 c).toNat d = c := by
  have hp := shuffleArray_perm (c :: ds) rs
  have hm : c ∈ (shuffleArray (c :: ds) rs).1 :=
    hp.mem_iff.mpr (List.mem_cons_self c ds)
  obtain ⟨h0, hlen, hget⟩ := jsIndexOf_mem _ c hm
  exact ⟨by simpa using hp.length_eq, h0, hlen, hget⟩

theorem map_eq_self_mem {f : α → α} :
    ∀ {l : List α}, l.map f = l → ∀ x ∈ l, f x = x := by
  intro l
  induction l with
  | nil => intro _ x hx; simp at hx
  | cons a as ih =>
    intro h x hx
    simp only [List.map_cons, List.cons.injEq] at h
    rcases List.mem_cons.mp hx with h' | h'
    · subst h'; exact h.1
    · exact ih h.2 x h'

theorem append_ne_self (t l : JStr) (hl : l ≠ []) : t ++ l ≠ t := by
  intro h
  have hlen := congrArg List.length h
  rw [List.length_append] at hlen
  exact hl (List.eq_nil_of_length_eq_zero (by omega))

theorem similar_ne (t : JStr) (rs : List Nat) (hup : jsUpper t = t) :
    (generateSimilarWord t rs).1 ≠ t := by
  unfold generateSimilarWord
  dsimp only
  have h5 : (0 : Nat) <
      ([t ++ "s".data, t ++ "ing".data, t ++ "ed".data,
        t.dropLast ++ "y".data, t ++ "ly".data] : List JStr).length := by simp
  have hj := randBelow_lt _ h5 rs
  set j := (randBelow
    ([t ++ "s".data, t ++ "ing".data, t ++ "ed".data,
      t.dropLast ++ "y".data, t ++ "ly".data] : List JStr).length rs).1 with hjdef
  simp only [List.length_cons, List.length_nil] at hj
  interval_cases j <;> simp only [List.getD, List.getElem?_cons_zero,
    List.getElem?_cons_succ, Option.getD_some]
  · exact append_ne_self t "s".data (by decide)
  · exact append_ne_self t "ing".data (by decide)
  · exact append_ne_self t "ed".data (by decide)
  · intro h
    have hy : 'y' ∈ t := by
      rw [← h]
      exact List.mem_append_right _ (by decide)
    have := map_eq_self_mem hup 'y' hy
    exact absurd this (by decide)
  · exact append_ne_self t "ly".data (by decide)

theorem fillBlank_some_distractor (t : JStr) (rs : List Nat) :
    ∃ x ∈ [(if jsLower t = t then jsUpper t else jsLower t),
           (generateSimilarWord t rs).1,
           (generateRhymingWord t (generateSimilarWord t rs).2).1], x ≠ t := by
  by_cases h : jsLower t = t
  · by_cases h2 : jsUpper t = t
    · exact ⟨(generateSimilarWord t rs).1, by simp, similar_ne t rs h2⟩
    · refine ⟨(if jsLower t = t then jsUpper t else jsLower t), by simp, ?_⟩
      rw [if_pos h]; exact h2
  · refine ⟨(if jsLower t = t then jsUpper t else jsLower t), by simp, ?_⟩
    rw [if_neg h]; exact h

theorem filter_ne_nil_of_exists {t : JStr} {L : List JStr}
    (h : ∃ x ∈ L, x ≠ t) : L.filter (fun d => d ≠ t) ≠ [] := by
  obtain ⟨x, hx, hxt⟩ := h
  exact List.ne_nil_of_mem (List.mem_filter.mpr ⟨hx, decide_eq_true hxt⟩)

theorem fillBlank_options_eq (s t : JStr) (i : Nat) (rs : List Nat) :
    (generateFillBlankQuestion s t i rs).1.options =
      (shuffleArray (t :: ([if jsLower t = t then jsUpper t else jsLower t,
          (generateSimilarWord t rs).1,
          (generateRhymingWord t (generateSimilarWord t rs).2).1].filter
            (fun d => d ≠ t)).take 3)
        (generateRhymingWord t (generateSimilarWord t rs).2).2).1 := rfl

theorem fillBlank_correct_eq (s t : JStr) (i : Nat) (rs : List Nat) :
    (generateFillBlankQuestion s t i rs).1.correct =
      jsIndexOf (generateFillBlankQuestion s t i rs).1.options t := rfl

theorem fillBlank_spec (s t : JStr) (i : Nat) (rs : List Nat) :
    QOk (generateFillBlankQuestion s t i rs).1 ∧
    ∀ d, (generateFillBlankQuestion s t i rs).1.options.getD
      (generateFillBlankQuestion s t i rs).1.correct.toNat d = t := by
  have hDne := filter_ne_nil_of_exists (fillBlank_some_distractor t rs)
  obtain ⟨hlen, h0, hlt, hget⟩ := shuffle_head_facts t
    (([if jsLower t = t then jsUpper t else jsLower t,
        (generateSimilarWord t rs).1,
        (generateRhymingWord t (generateSimilarWord t rs).2).1].filter
          (fun d => d ≠ t)).take 3)
    (generateRhymingWord t (generateSimilarWord t rs).2).2
  rw [← fillBlank_options_eq s t i rs] at hlen h0 hlt hget
  rw [← fillBlank_correct_eq s t i rs] at h0 hlt hget
  have hD1 : 1 ≤ (([if jsLower t = t then jsUpper t else jsLower t,
      (generateSimilarWord t rs).1,
      (generateRhymingWord t (generateSimilarWord t rs).2).1].filter
        (fun d => d ≠ t)).take 3).length := by
    rw [List.length_take]
    have := List.length_pos.mpr hDne
    omega
  have hD3 : (([if jsLower t = t then jsUpper t else jsLower t,
      (generateSimilarWord t rs).1,
      (generateRhymingWord t (generateSimilarWord t rs).2).1].filter
        (fun d => d ≠ t)).take 3).length ≤ 3 := List.length_take_le 3 _
  exact ⟨⟨by omega, by omega, h0, hlt⟩, hget⟩

theorem shuffle4_facts (c d1 d2 d3 : JStr) (rs : List Nat) :
    (shuffleArray [c, d1, d2, d3] rs).1.length = 4 ∧
    0 ≤ jsIndexOf (shuffleArray [c, d1, d2, d3] rs).1 c ∧
    (jsIndexOf (shuffleArray [c, d1, d2, d3] rs).1 c).toNat <
      (shuffleArray [c, d1, d2, d3] rs).1.length ∧
    ∀ d, (shuffleArray [c, d1, d2, d3] rs).1.getD
      (jsIndexOf (shuffleArray [c, d1, d2, d3] rs).1 c).toNat d = c := by
  have h := shuffle_head_facts c [d1, d2, d3] rs
  simpa using h

theorem defQuestion_spec (p t : JStr) (i : Nat) (rs : List Nat) :
    (generateDefinitionQuestion p t i rs).1.options.length = 4 ∧
    QOk (generateDefinitionQuestion p t i rs).1 ∧
    ∀ d, (generateDefinitionQuestion p t i rs).1.options.getD
      (generateDefinitionQuestion p t i rs).1.correct.toNat d = conceptOptionStr := by
  have hopt : (generateDefinitionQuestion p t i rs).1.options =
      (shuffleArray [conceptOptionStr, "A type of ".data ++ jsLower t,
        "The opposite of ".data ++ jsLower t,
        "A synonym for ".data ++ jsLower t] rs).1 := rfl
  have hcor : (generateDefinitionQuestion p t i rs).1.correct =
      jsIndexOf (generateDefinitionQuestion p t i rs).1.options conceptOptionStr := rfl
  obtain ⟨hlen, h0, hlt, hget⟩ := shuffle4_facts conceptOptionStr
    ("A type of ".data ++ jsLower t) ("The opposite of ".data ++ jsLower t)
    ("A synonym for ".data ++ jsLower t) rs
  rw [← hopt] at hlen h0 hlt hget
  rw [← hcor] at h0 hlt hget
  exact ⟨hlen, ⟨by omega, by omega, h0, hlt⟩, hget⟩

theorem ctxQuestion_spec (p s : JStr) (i : Nat) (rs : List Nat) :
    (generateContextQuestion p s i rs).1.options.length = 4 ∧
    QOk (generateContextQuestion p s i rs).1 ∧
    ∀ d, (generateContextQuestion p s i rs).1.options.getD
      (generateContextQuestion p s i rs).1.correct.toNat d =
        (if s.length > 80 then jsSubstring s 0 80 ++ "...".data else s) := by
  have hopt : (generateContextQuestion p s i rs).1.options =
      (shuffleArray ((if s.length > 80 then jsSubstring s 0 80 ++ "...".data else s) ::
        contextDistractors) rs).1 := rfl
  have hcor : (generateContextQuestion p s i rs).1.correct =
      jsIndexOf (generateContextQuestion p s i rs).1.options
        (if s.length > 80 then jsSubstring s 0 80 ++ "...".data else s) := rfl
  obtain ⟨hlen, h0, hlt, hget⟩ := shuffle_head_facts
    (if s.length > 80 then jsSubstring s 0 80 ++ "...".data else s) contextDistractors rs
  rw [← hopt] at hlen h0 hlt hget
  rw [← hcor] at h0 hlt hget
  have hcd : contextDistractors.length = 3 := rfl
  rw [hcd] at hlen
  exact ⟨hlen, ⟨by omega, by omega, h0, hlt⟩, hget⟩

theorem compQuestion_spec (p s : JStr) (i : Nat) (rs : List Nat) :
    (generateComprehensionQuestion p s i rs).1.options.length = 4 ∧
    QOk (generateComprehensionQuestion p s i rs).1 ∧
    ∀ d, (generateComprehensionQuestion p s i rs).1.options.getD
      (generateComprehensionQuestion p s i rs).1.correct.toNat d =
        "The text discusses ".data ++
          (let words := (jsSplitRuns jsIsWs s).filter fun w => w.length > 3
           if words.length > 0 then words.getD (words.length / 2) [] else "concept".data) ++
          " as described".data := by
  have hopt : (generateComprehensionQuestion p s i rs).1.options =
      (shuffleArray (("The text discusses ".data ++
          (let words := (jsSplitRuns jsIsWs s).filter fun w => w.length > 3
           if words.length > 0 then words.getD (words.length / 2) [] else "concept".data) ++
          " as described".data) ::
        [(let words := (jsSplitRuns jsIsWs s).filter fun w => w.length > 3
          if words.length > 0 then words.getD (words.length / 2) [] else "concept".data) ++
            " is not discussed in this context".data,
         "The text contradicts this information about ".data ++
          (let words := (jsSplitRuns jsIsWs s).filter fun w => w.length > 3
           if words.length > 0 then words.getD (words.length / 2) [] else "concept".data),
         (let words := (jsSplitRuns jsIsWs s).filter fun w => w.length > 3
          if words.length > 0 then words.getD (words.length / 2) [] else "concept".data) ++
            " is mentioned but with different details".data]) rs).1 := rfl
  have hcor : (generateComprehensionQuestion p s i rs).1.correct =
      jsIndexOf (generateComprehensionQuestion p s i rs).1.options
        ("The text discusses ".data ++
          (let words := (jsSplitRuns jsIsWs s).filter fun w => w.length > 3
           if words.length > 0 then words.getD (words.length / 2) [] else "concept".data) ++
          " as described".data) := rfl
  obtain ⟨hlen, h0, hlt, hget⟩ := shuffle_head_facts
    ("The text discusses ".data ++
      (let words := (jsSplitRuns jsIsWs s).filter fun w => w.length > 3
       if words.length > 0 then words.getD (words.length / 2) [] else "concept".data) ++
      " as described".data)
    [(let words := (jsSplitRuns jsIsWs s).filter fun w => w.length > 3
      if words.length > 0 then words.getD (words.length / 2) [] else "concept".data) ++
        " is not discussed in this context".data,
     "The text contradicts this information about ".data ++
      (let words := (jsSplitRuns jsIsWs s).filter fun w => w.length > 3
       if words.length > 0 then words.getD (words.length / 2) [] else "concept".data),
     (let words := (jsSplitRuns jsIsWs s).filter fun w => w.length > 3
      if words.length > 0 then words.getD (words.length / 2) [] else "concept".data) ++
        " is mentioned but with different details".data] rs
  rw [← hopt] at hlen h0 hlt hget
  rw [← hcor] at h0 hlt hget
  simp only [List.length_cons, List.length_nil] at hlen
  exact ⟨hlen, ⟨by omega, by omega, h0, hlt⟩, hget⟩

theorem quizSegStep_QOk (segs : List JStr) (count : Nat)
    (st : AIService.QuizState) (h : ∀ q ∈ st.questions, QOk q) :
    ∀ q ∈ (AIService.quizSegStep segs count st).questions, QOk q := by
  intro q hq
  unfold AIService.quizSegStep at hq
  dsimp only at hq
  split at hq <;>
  · split at hq
    · exact h q hq
    · split at hq
      · rcases List.mem_append.mp hq with hold | hnew
        · exact h q hold
        · rw [List.mem_singleton] at hnew
          subst hnew
          split
          · exact (fillBlank_spec _ _ _ _).1
          · exact (defQuestion_spec _ _ _ _).2.1
          · exact (ctxQuestion_spec _ _ _ _).2.1
          · exact (compQuestion_spec _ _ _ _).2.1
      · exact h q hq

theorem quizRun_QOk (segs : List JStr) (count : Nat) :
    ∀ (fuel : Nat) (st : AIService.QuizState), (∀ q ∈ st.questions, QOk q) →
      ∀ q ∈ ((AIService.quizRun segs count fuel st).1).questions, QOk q := by
  intro fuel
  induction fuel with
  | zero =>
    intro st h q hq
    simp only [AIService.quizRun] at hq
    exact h q hq
  | succ n ih =>
    intro st h q hq
    simp only [AIService.quizRun] at hq
    split at hq
    · exact ih _ (quizSegStep_QOk segs count st h) q hq
    · exact h q hq

set_option maxRecDepth 10000 in
/-- C1 counterexample.  On `radarText` with `count = 1` the fill-in-blank
question has only 3 options for every random stream (shown here for the
all-zero stream): the anchor word `radar` is an all-lowercase palindrome, so
the reversed-string rhyme fallback equals the anchor and is filtered out of
the distractors — `options` does not have exactly 4 entries. -/
theorem quiz_three_options :
    ((AIService.generateEnhancedLocalQuiz radarText 1 10 []).1.map
      (fun q => q.options.length)) = [3] := by
  decide

/-- C1, amended.  For every input, count, fuel bound and random stream,
every question the local quiz generator produces has between 2 and 4
options (4 unless fill-in-blank distractors equal to the anchor were
filtered out) and a `correct` field that is a valid index; and for each of
the four strategies the option at `correct` is the designated correct value:
the anchor word for fill-in-blank, the fixed template string for
definition, the (possibly truncated) source sentence for context, and the
`The text discusses X as described` sentence for comprehension — never one
of the generated distractor strings, which for fill-in-blank are filtered
to differ from the anchor. -/
theorem quiz_options_correct :
    (∀ s t i rs, QOk (generateFillBlankQuestion s t i rs).1 ∧
      ∀ d, (generateFillBlankQuestion s t i rs).1.options.getD
        (generateFillBlankQuestion s t i rs).1.correct.toNat d = t) ∧
    (∀ p t i rs, (generateDefinitionQuestion p t i rs).1.options.length = 4 ∧
      QOk (generateDefinitionQuestion p t i rs).1 ∧
      ∀ d, (generateDefinitionQuestion p t i rs).1.options.getD
        (generateDefinitionQuestion p t i rs).1.correct.toNat d = conceptOptionStr) ∧
    (∀ p s i rs, (generateContextQuestion p s i rs).1.options.length = 4 ∧
      QOk (generateContextQuestion p s i rs).1 ∧
      ∀ d, (generateContextQuestion p s i rs).1.options.getD
        (generateContextQuestion p s i rs).1.correct.toNat d =
          (if s.length > 80 then jsSubstring s 0 80 ++ "...".data else s)) ∧
    (∀ p s i rs, (generateComprehensionQuestion p s i rs).1.options.length = 4 ∧
      QOk (generateComprehensionQuestion p s i rs).1 ∧
      ∀ d, (generateComprehensionQuestion p s i rs).1.options.getD
        (generateComprehensionQuestion p s i rs).1.correct.toNat d =
          "The text discusses ".data ++
            (let words := (jsSplitRuns jsIsWs s).filter fun w => w.length > 3
             if words.length > 0 then words.getD (words.length / 2) [] else "concept".data) ++
            " as described".data) ∧
    (∀ text count fuel rs, ∀ q ∈ (AIService.generateEnhancedLocalQuiz text count fuel rs).1,
      QOk q) := by
  refine ⟨fillBlank_spec, defQuestion_spec, ctxQuestion_spec, compQuestion_spec, ?_⟩
  intro text count fuel rs q hq
  unfold AIService.generateEnhancedLocalQuiz at hq
  dsimp only at hq
  exact quizRun_QOk _ count fuel _ (by simp) q hq

set_option maxRecDepth 20000 in
/-- Witness for C1's amended theorem: the first question generated on the
40-word text satisfies the invariant. -/
theorem quiz_options_correct_witness :
    QOk (((AIService.generateEnhancedLocalQuiz fortyWordText 5 50 []).1).getD 0
      { id := [], question := [], options := [], correct := 0, explanation := [] }) := by
  have h : ((AIService.generateEnhancedLocalQuiz fortyWordText 5 50 []).1).getD 0
      { id := [], question := [], options := [], correct := 0, explanation := [] } ∈
      (AIService.generateEnhancedLocalQuiz fortyWordText 5 50 []).1 := by decide
  exact quiz_options_correct.2.2.2.2 fortyWordText 5 50 [] _ h
